import Mathlib

/-!
Verification of the `marvin` configuration module (`src/marvin/config.py`).

The module is a pydantic-v1 `BaseSettings` subclass plus a handful of
module-level helpers.  We give a shallow embedding of the pieces the
properties below are about:

* the module-level backend-inference function `infer_llm_backend`;
* the field-resolution pipeline of `Settings.__init__` (field defaults,
  the `pre`/`always` field validators `infer_llm_backend` and
  `infer_llm_model_for_response_format`, then the root validators
  `initial_setup` and `test_mode_settings`, in definition order);
* `Settings.export_to_env_file` and a reload of the written file;
* the `temporary_settings` context manager, which snapshots the live
  object with pydantic's `.dict()` and restores it by clearing and
  re-filling the instance `__dict__`.

Machine floats in the source only ever hold exact decimal constants
(0.8, 0.0, 600.0), so they are embedded as exact decimal values
(`PyFloat`, a mantissa with a count of fractional digits).  File-system
side effects (`mkdir(parents=True, exist_ok=True)`) are embedded as a
set of existing directories, per the idempotent ensure-exists contract.

The embedding keeps a representative subset of the `Settings` fields:
every field any verified property mentions, covering every declared
field type of the source (path, bool, str, optional int, int, float,
enum, optional secret, secret, nested model).  The omitted fields
(discourse, slack, github, redis, stackexchange, api, logging width
companions, ...) are plain scalar fields with no validators and no
cross-field references; they behave exactly like the retained scalar
fields of the same type.
-/

/-- Python-level errors the embedded code can raise:
`AttributeError` (calling a method on `None`),
`ValueError` (raised by `infer_llm_backend`),
and pydantic's per-field coercion failure, tagged with the field name. -/
inductive PyError where
  | attributeError
  | valueError (msg : String)
  | coercionError (field : String)
deriving DecidableEq, Repr

/-- `class LLMBackend(str, Enum)` from the source. -/
inductive LLMBackend where
  | OpenAI
  | AzureOpenAI
  | OpenAIChat
  | AzureOpenAIChat
  | Anthropic
  | HuggingFaceHub
deriving DecidableEq, Repr

/-- The string value of each `LLMBackend` member (the enum is a `str` enum). -/
def LLMBackend.value : LLMBackend → String
  | .OpenAI => "OpenAI"
  | .AzureOpenAI => "AzureOpenAI"
  | .OpenAIChat => "OpenAIChat"
  | .AzureOpenAIChat => "AzureOpenAIChat"
  | .Anthropic => "Anthropic"
  | .HuggingFaceHub => "HuggingFaceHub"

/-- pydantic's `SecretStr`: a wrapper whose payload is read with
`get_secret_value`. -/
structure SecretStr where
  val : String
deriving DecidableEq, Repr

/-- `SecretStr.get_secret_value()`. -/
def SecretStr.get_secret_value (s : SecretStr) : String := s.val

/-- A `pathlib` path: an absoluteness flag plus the name components.
`Path("a/b")` is `⟨false, ["a", "b"]⟩`; `Path("/a/b")` is
`⟨true, ["a", "b"]⟩`. -/
structure PyPath where
  absolute : Bool
  parts : List String
deriving DecidableEq, Repr

/-- `pathlib`'s `/` operator: joining with an absolute right operand
discards the left operand; otherwise the components concatenate. -/
def PyPath.join (a b : PyPath) : PyPath :=
  if b.absolute then b else ⟨a.absolute, a.parts ++ b.parts⟩

/-- `Path.is_absolute()`. -/
def PyPath.is_absolute (p : PyPath) : Bool := p.absolute

/-- `Path.parent`: drop the last component. -/
def PyPath.parent (p : PyPath) : PyPath := ⟨p.absolute, p.parts.dropLast⟩

/-- `str(path)`. -/
def PyPath.toStr (p : PyPath) : String :=
  (if p.absolute then "/" else "") ++ String.intercalate "/" p.parts

/-- Split a character list at every occurrence of the separator. -/
def splitOnChar (sep : Char) : List Char → List (List Char)
  | [] => [[]]
  | c :: rest =>
    let r := splitOnChar sep rest
    if c = sep then [] :: r
    else
      match r with
      | [] => [[c]]
      | g :: gs => (c :: g) :: gs

/-- Python's `str.replace` on character lists: replace every
non-overlapping occurrence, scanning left to right.  The fuel argument
(instantiated with the list length, which bounds the number of steps)
only makes the recursion structural. -/
def replaceChars (fuel : Nat) (pat rep l : List Char) : List Char :=
  match fuel, l with
  | 0, l2 => l2
  | _, [] => []
  | Nat.succ f, c :: rest =>
    if pat.isPrefixOf (c :: rest) then
      rep ++ replaceChars f pat rep ((c :: rest).drop pat.length)
    else c :: replaceChars f pat rep rest

/-- Python's `str.replace`. -/
def replaceStr (s pat rep : String) : String :=
  String.mk (replaceChars s.data.length pat.data rep.data s.data)

/-- Python's `str.lower`. -/
def lowerStr (s : String) : String := String.mk (s.data.map Char.toLower)

/-- The numeric value of a nonempty digit string. -/
def digitsToNat? (l : List Char) : Option Nat :=
  if l = [] then none
  else
    l.foldl (fun acc c =>
      match acc with
      | none => none
      | some a => if c.isDigit then some (a * 10 + (c.toNat - 48)) else none)
      (some 0)

/-- A Python float holding an exact decimal value, the rational
`mant / 10 ^ exp`.  Every float this module stores or parses is such an
exact decimal written with a fixed number of fractional digits, so the
representation is canonical here: 0.8 is `⟨8, 1⟩`, 0.0 is `⟨0, 1⟩`,
600.0 is `⟨6000, 1⟩`. -/
structure PyFloat where
  mant : Int
  exp : Nat
deriving DecidableEq, Repr

/-- `Path(s)` for the strings this module handles (no `..`/`.` cleanup is
performed by `pathlib` construction either). -/
def pathOfString (s : String) : PyPath :=
  ⟨s.data.headD ' ' = '/',
   ((splitOnChar '/' s.data).filter (fun t => t ≠ [])).map String.mk⟩

/-- Python's `str.startswith`. -/
def startswith (s p : String) : Bool :=
  p.data.isPrefixOf s.data


/-- The file system, as the set of directories that exist. -/
abbrev FS := List PyPath

/-- `path.mkdir(parents=True, exist_ok=True)`: afterwards the directory and
every ancestor exist; an already-existing directory is left alone. -/
def mkdirParents (p : PyPath) (fs : FS) : FS :=
  ((List.range (p.parts.length + 1)).map (fun n => PyPath.mk p.absolute (p.parts.take n))) ++ fs

/-- Module-level `infer_llm_backend` (config.py lines 42-61).  The Python
signature declares `model: str = None`; calling it with `None` evaluates
`model.startswith("gpt-3")` on `None`, which raises `AttributeError`. -/
def infer_llm_backend (model : Option String) : Except PyError LLMBackend :=
  match model with
  | none => Except.error PyError.attributeError
  | some m =>
    if startswith m "gpt-3" || startswith m "gpt-4" then
      Except.ok LLMBackend.OpenAIChat
    else if startswith m "text-davinci" || startswith m "text-curie"
        || startswith m "text-babbage" || startswith m "text-ada" then
      Except.ok LLMBackend.OpenAI
    else if startswith m "claude" then
      Except.ok LLMBackend.Anthropic
    else
      Except.error (PyError.valueError
        "No LLM backend provided and could not infer one from `llm_model`.")

/-- True when the model name carries one of the prefixes the inference
table recognizes. -/
def knownModelFamily (m : String) : Bool :=
  startswith m "gpt-3" || startswith m "gpt-4"
    || startswith m "text-davinci" || startswith m "text-curie"
    || startswith m "text-babbage" || startswith m "text-ada"
    || startswith m "claude"

/-- Reports whether a call raised `AttributeError`. -/
def raisedAttributeError : Except PyError LLMBackend → Bool
  | Except.error PyError.attributeError => true
  | _ => false

/-- `DEFAULT_DB_CONNECTION_URL` on the non-Windows branch (config.py
line 19). -/
def DEFAULT_DB_CONNECTION_URL : String :=
  "sqlite+aiosqlite:////$MARVIN_HOME/marvin.sqlite"

/-- The fields of `ChromaSettings` when chromadb is installed
(config.py lines 66-77).  `persist_directory` is declared `str`. -/
structure ChromaFields where
  chroma_db_impl : String := "duckdb+parquet"
  chroma_server_host : String := "localhost"
  chroma_server_http_port : Int := 8000
  persist_directory : String := "chroma"
deriving DecidableEq, Repr

/-- The resolved `Settings` object.  One slot per embedded field, with the
declared defaults of the source (`RawInput` resolution below).
`llm_temperature` is a float in the source; the module only ever stores
exact decimal constants in it, embedded as `PyFloat`. -/
structure Settings where
  home : PyPath
  test_mode : Bool
  verbose : Bool
  log_level : String
  log_console_width : Option Int
  llm_model : String
  llm_backend : LLMBackend
  llm_max_tokens : Int
  llm_temperature : PyFloat
  llm_model_for_response_format : String
  embeddings_cache_path : PyPath
  openai_api_key : Option SecretStr
  chroma : ChromaFields
  database_connection_url : SecretStr
  database_check_migration_version_on_startup : Bool
  bot_create_profile_picture : Bool
  bot_load_default_plugins : Bool
deriving DecidableEq, Repr

/-- The raw, per-field input to construction: for each field either an
explicitly supplied (already type-coerced) value or absence, in which
case the field's declared default applies.  Explicit values stand for
constructor keyword arguments or environment/env-file entries alike:
pydantic resolves them to the same per-field raw value before
validation runs. -/
structure RawInput where
  home : Option PyPath := none
  test_mode : Option Bool := none
  verbose : Option Bool := none
  log_level : Option String := none
  log_console_width : Option (Option Int) := none
  llm_model : Option String := none
  llm_backend : Option LLMBackend := none
  llm_max_tokens : Option Int := none
  llm_temperature : Option PyFloat := none
  llm_model_for_response_format : Option String := none
  embeddings_cache_path : Option PyPath := none
  openai_api_key : Option (Option SecretStr) := none
  chroma : Option ChromaFields := none
  database_connection_url : Option SecretStr := none
  database_check_migration_version_on_startup : Option Bool := none
  bot_create_profile_picture : Option Bool := none
  bot_load_default_plugins : Option Bool := none
deriving DecidableEq, Repr

/-- The `llm_backend` field validator (`pre=True, always=True`,
config.py lines 299-303): an absent value is inferred from the
already-resolved `llm_model`; an explicit value passes through. -/
def validator_llm_backend (v : Option LLMBackend) (llm_model : String) :
    Except PyError LLMBackend :=
  match v with
  | none => infer_llm_backend (some llm_model)
  | some b => Except.ok b

/-- The `llm_model_for_response_format` field validator (`pre=True,
always=True`, config.py lines 305-312). -/
def validator_llm_model_for_response_format (v : Option String)
    (llm_model : String) : String :=
  match v with
  | some s => s
  | none => if startswith llm_model "gpt-4" then "gpt-3.5-turbo" else llm_model

/-- The home-prefixing path normalization used by `initial_setup`
(config.py lines 270-273): a relative path is prefixed with the home
directory, an absolute one is left alone. -/
def normalize_path_field (home p : PyPath) : PyPath :=
  if p.is_absolute then p else home.join p

/-- The `initial_setup` root validator (config.py lines 265-297):
create the home directory, prefix the home directory onto the relative
`embeddings_cache_path` and create its parent, prefix home onto a
relative chroma `persist_directory` (the chromadb-installed branch),
and interpolate `$MARVIN_HOME` into the database connection secret.
The `verbose` console print is output-only and not modelled. -/
def initial_setup (v : Settings) (fs : FS) : Settings × FS :=
  let fs1 := mkdirParents v.home fs
  let ecp := normalize_path_field v.home v.embeddings_cache_path
  let fs2 := mkdirParents ecp.parent fs1
  let chromaPath := pathOfString v.chroma.persist_directory
  let chroma :=
    if chromaPath.is_absolute then v.chroma
    else { v.chroma with persist_directory := (v.home.join chromaPath).toStr }
  let dburl := SecretStr.mk
    (replaceStr (v.database_connection_url.get_secret_value) "$MARVIN_HOME" v.home.toStr)
  ({ v with embeddings_cache_path := ecp, chroma := chroma,
            database_connection_url := dburl }, fs2)

/-- The `test_mode_settings` root validator (config.py lines 333-350),
defined after `initial_setup` and therefore run last. -/
def test_mode_settings (v : Settings) : Settings :=
  if v.test_mode then
    { v with
        log_level := "DEBUG",
        verbose := true,
        bot_create_profile_picture := false,
        bot_load_default_plugins := false,
        llm_temperature := ⟨0, 1⟩,
        llm_model := "gpt-3.5-turbo",
        llm_backend := LLMBackend.OpenAIChat,
        database_check_migration_version_on_startup := false }
  else v

/-- Construction of a `Settings` object: resolve every field to its
explicit value or declared default, run the two `pre`/`always` field
validators (each reads only fields declared before its own, per
pydantic's declaration-order semantics), then the root validators
`initial_setup` and `test_mode_settings` in definition order.
`homeDefault` stands for `Path("~/.marvin").expanduser()`, the
environment-dependent declared default of `home`.  pydantic collects
per-field errors and still runs the root validators before failing the
whole construction; since only overall success or failure and the
successfully constructed values are ever claimed, errors are embedded
as short-circuiting.

`resolveFields` is the per-field resolution (explicit value or declared
default, with the two field validators applied): the state right before
the root validators run. -/
def resolveFields (homeDefault : PyPath) (inp : RawInput) (llm_backend : LLMBackend) :
    Settings :=
  { home := inp.home.getD homeDefault,
    test_mode := inp.test_mode.getD false,
    verbose := inp.verbose.getD false,
    log_level := inp.log_level.getD "INFO",
    log_console_width := inp.log_console_width.getD none,
    llm_model := inp.llm_model.getD "gpt-3.5-turbo",
    llm_backend := llm_backend,
    llm_max_tokens := inp.llm_max_tokens.getD 1250,
    llm_temperature := inp.llm_temperature.getD ⟨8, 1⟩,
    llm_model_for_response_format :=
      validator_llm_model_for_response_format inp.llm_model_for_response_format
        (inp.llm_model.getD "gpt-3.5-turbo"),
    embeddings_cache_path :=
      inp.embeddings_cache_path.getD ⟨false, ["cache", "embeddings.sqlite"]⟩,
    openai_api_key := inp.openai_api_key.getD none,
    chroma := inp.chroma.getD {},
    database_connection_url :=
      inp.database_connection_url.getD (SecretStr.mk DEFAULT_DB_CONNECTION_URL),
    database_check_migration_version_on_startup :=
      inp.database_check_migration_version_on_startup.getD true,
    bot_create_profile_picture := inp.bot_create_profile_picture.getD false,
    bot_load_default_plugins := inp.bot_load_default_plugins.getD true }

def constructSettings (homeDefault : PyPath) (inp : RawInput) (fs : FS) :
    Except PyError (Settings × FS) := do
  let llm_backend ← validator_llm_backend inp.llm_backend
    (inp.llm_model.getD "gpt-3.5-turbo")
  let v := resolveFields homeDefault inp llm_backend
  let (v2, fs2) := initial_setup v fs
  pure (test_mode_settings v2, fs2)

/-- Whether an `Except` result is a success. -/
def isOkE {α : Type} (r : Except PyError α) : Bool :=
  match r with
  | Except.ok _ => true
  | Except.error _ => false

/-- Extract the settings of a successful construction (defaulting
otherwise); lets closed witness statements name the constructed
object. -/
def okSettings (r : Except PyError (Settings × FS)) (d : Settings) : Settings :=
  match r with
  | Except.ok (s, _) => s
  | Except.error _ => d

/-- Extract the file system of a successful construction. -/
def okFS (r : Except PyError (Settings × FS)) (d : FS) : FS :=
  match r with
  | Except.ok (_, fs) => fs
  | Except.error _ => d

/-- Left-pad a numeral string with zeros to the given width. -/
def padZeros (s : String) (w : Nat) : String :=
  String.mk (List.replicate (w - s.length) '0') ++ s

/-- Python's `str()` of a float, for the exact decimal values this module
stores: render the decimal expansion with the stored number of
fractional digits, with at least one fractional digit (`str(600.0)` is
`"600.0"`, `str(0.8)` is `"0.8"`). -/
def pyFloatStr (q : PyFloat) : String :=
  let n := q.mant.natAbs
  let ip := n / 10 ^ q.exp
  let fp := n % 10 ^ q.exp
  (if q.mant < 0 then "-" else "") ++ toString ip ++ "."
    ++ (if q.exp = 0 then "0" else padZeros (toString fp) q.exp)

/-- Python's `str()` of a bool. -/
def pyStrBool (b : Bool) : String := if b then "True" else "False"

/-- Python's `str()` of an `Optional[int]`. -/
def pyStrOptInt : Option Int → String
  | none => "None"
  | some n => toString n

/-- Python's `str()` of an `LLMBackend` member: a `str`-mixin `Enum`
renders as `ClassName.MemberName`. -/
def pyStrBackend (b : LLMBackend) : String :=
  "LLMBackend." ++ match b with
  | .OpenAI => "OpenAI"
  | .AzureOpenAI => "AzureOpenAI"
  | .OpenAIChat => "OpenAIChat"
  | .AzureOpenAIChat => "AzureOpenAIChat"
  | .Anthropic => "Anthropic"
  | .HuggingFaceHub => "HuggingFaceHub"

/-- `export_to_env_file` serializes `self.dict()`, in which the nested
chroma model has become a plain Python dict, so `str()` renders its
repr: single-quoted keys and values inside braces. -/
def pyStrChroma (c : ChromaFields) : String :=
  "\x7b\x27chroma_db_impl\x27: \x27" ++ c.chroma_db_impl
    ++ "\x27, \x27chroma_server_host\x27: \x27" ++ c.chroma_server_host
    ++ "\x27, \x27chroma_server_http_port\x27: " ++ toString c.chroma_server_http_port
    ++ ", \x27persist_directory\x27: \x27" ++ c.persist_directory ++ "\x27\x7d"

/-- `str()` of an `Optional[SecretStr]` slot as exported: a present
secret is written unwrapped (the `isinstance(value, SecretStr)` branch
of config.py lines 97-101); an absent one is `str(None)`. -/
def pyStrOptSecret : Option SecretStr → String
  | none => "None"
  | some s => s.get_secret_value

/-- `Settings.export_to_env_file` (config.py lines 93-102): one
`MARVIN_<FIELD_UPPER>` line per field of `self.dict()`, in field
declaration order, values rendered with `str()` except secrets, which
are written unwrapped. -/
def export_to_env_file (s : Settings) : List (String × String) :=
  [("MARVIN_HOME", s.home.toStr),
   ("MARVIN_TEST_MODE", pyStrBool s.test_mode),
   ("MARVIN_VERBOSE", pyStrBool s.verbose),
   ("MARVIN_LOG_LEVEL", s.log_level),
   ("MARVIN_LOG_CONSOLE_WIDTH", pyStrOptInt s.log_console_width),
   ("MARVIN_LLM_MODEL", s.llm_model),
   ("MARVIN_LLM_BACKEND", pyStrBackend s.llm_backend),
   ("MARVIN_LLM_MAX_TOKENS", toString s.llm_max_tokens),
   ("MARVIN_LLM_TEMPERATURE", pyFloatStr s.llm_temperature),
   ("MARVIN_LLM_MODEL_FOR_RESPONSE_FORMAT", s.llm_model_for_response_format),
   ("MARVIN_EMBEDDINGS_CACHE_PATH", s.embeddings_cache_path.toStr),
   ("MARVIN_OPENAI_API_KEY", pyStrOptSecret s.openai_api_key),
   ("MARVIN_CHROMA", pyStrChroma s.chroma),
   ("MARVIN_DATABASE_CONNECTION_URL", s.database_connection_url.get_secret_value),
   ("MARVIN_DATABASE_CHECK_MIGRATION_VERSION_ON_STARTUP",
     pyStrBool s.database_check_migration_version_on_startup),
   ("MARVIN_BOT_CREATE_PROFILE_PICTURE", pyStrBool s.bot_create_profile_picture),
   ("MARVIN_BOT_LOAD_DEFAULT_PLUGINS", pyStrBool s.bot_load_default_plugins)]

/-- Look a key up in the parsed env file. -/
def lookupEnv (lines : List (String × String)) (k : String) : Option String :=
  (lines.find? (fun p => p.1 = k)).map (fun p => p.2)

/-- pydantic v1's bool coercion from a string. -/
def parsePyBool (field s : String) : Except PyError Bool :=
  let t := lowerStr s
  if t = "1" || t = "on" || t = "t" || t = "true" || t = "y" || t = "yes" then
    Except.ok true
  else if t = "0" || t = "off" || t = "f" || t = "false" || t = "n" || t = "no" then
    Except.ok false
  else Except.error (PyError.coercionError field)

/-- pydantic v1's int coercion from a string. -/
def parsePyInt (field s : String) : Except PyError Int :=
  let neg := s.data.headD ' ' = '-'
  let t := if neg then s.data.drop 1 else s.data
  match digitsToNat? t with
  | some n => Except.ok (if neg then -(n : Int) else (n : Int))
  | none => Except.error (PyError.coercionError field)

/-- A terminating decimal numeral as an exact decimal float, or
`none`. -/
def parseDecimalChars (l : List Char) : Option PyFloat :=
  let neg := l.headD ' ' = '-'
  let t := if neg then l.drop 1 else l
  let sign := fun (n : Int) => if neg then -n else n
  match splitOnChar '.' t with
  | [i] => (digitsToNat? i).map (fun n => PyFloat.mk (sign n) 0)
  | [i, f] =>
    match digitsToNat? i, digitsToNat? f with
    | some ni, some nf =>
      some (PyFloat.mk (sign (ni * 10 ^ f.length + nf)) f.length)
    | _, _ => none
  | _ => none

/-- pydantic v1's float coercion from a string. -/
def parsePyFloat (field s : String) : Except PyError PyFloat :=
  match parseDecimalChars s.data with
  | some q => Except.ok q
  | none => Except.error (PyError.coercionError field)

/-- pydantic's enum validation: the raw string must equal a member's
value. -/
def parsePyBackend (field s : String) : Except PyError LLMBackend :=
  if s = "OpenAI" then Except.ok LLMBackend.OpenAI
  else if s = "AzureOpenAI" then Except.ok LLMBackend.AzureOpenAI
  else if s = "OpenAIChat" then Except.ok LLMBackend.OpenAIChat
  else if s = "AzureOpenAIChat" then Except.ok LLMBackend.AzureOpenAIChat
  else if s = "Anthropic" then Except.ok LLMBackend.Anthropic
  else if s = "HuggingFaceHub" then Except.ok LLMBackend.HuggingFaceHub
  else Except.error (PyError.coercionError field)

/-- Read one field's raw value from the env file and coerce it, absent
keys falling through to the declared default. -/
def readField {α : Type} (lines : List (String × String)) (k : String)
    (p : String → Except PyError α) : Except PyError (Option α) :=
  match lookupEnv lines k with
  | none => Except.ok none
  | some s => (p s).map some

/-- Rebuild the per-field raw input from an env file alone (no process
environment variables): look each embedded field's key up and coerce it
to the declared type.  The nested `chroma` field is left at its default
rather than parsed: pydantic would JSON-parse the exported Python-repr
string and fail, so leaving it unread only makes the reload more
permissive.  pydantic collects the per-field coercion errors; embedding
them as short-circuiting preserves overall success or failure. -/
def rawInputFromLines (lines : List (String × String)) : Except PyError RawInput := do
  let home ← readField lines "MARVIN_HOME" (fun s => Except.ok (pathOfString s))
  let test_mode ← readField lines "MARVIN_TEST_MODE" (parsePyBool "test_mode")
  let verbose ← readField lines "MARVIN_VERBOSE" (parsePyBool "verbose")
  let log_level ← readField lines "MARVIN_LOG_LEVEL" (fun s => Except.ok s)
  let log_console_width ← readField lines "MARVIN_LOG_CONSOLE_WIDTH"
    (fun s => (parsePyInt "log_console_width" s).map some)
  let llm_model ← readField lines "MARVIN_LLM_MODEL" (fun s => Except.ok s)
  let llm_backend ← readField lines "MARVIN_LLM_BACKEND" (parsePyBackend "llm_backend")
  let llm_max_tokens ← readField lines "MARVIN_LLM_MAX_TOKENS"
    (parsePyInt "llm_max_tokens")
  let llm_temperature ← readField lines "MARVIN_LLM_TEMPERATURE"
    (parsePyFloat "llm_temperature")
  let llm_model_for_response_format ← readField lines
    "MARVIN_LLM_MODEL_FOR_RESPONSE_FORMAT" (fun s => Except.ok s)
  let embeddings_cache_path ← readField lines "MARVIN_EMBEDDINGS_CACHE_PATH"
    (fun s => Except.ok (pathOfString s))
  let openai_api_key ← readField lines "MARVIN_OPENAI_API_KEY"
    (fun s => Except.ok (some (SecretStr.mk s)))
  let database_connection_url ← readField lines "MARVIN_DATABASE_CONNECTION_URL"
    (fun s => Except.ok (SecretStr.mk s))
  let database_check_migration_version_on_startup ← readField lines
    "MARVIN_DATABASE_CHECK_MIGRATION_VERSION_ON_STARTUP"
    (parsePyBool "database_check_migration_version_on_startup")
  let bot_create_profile_picture ← readField lines
    "MARVIN_BOT_CREATE_PROFILE_PICTURE" (parsePyBool "bot_create_profile_picture")
  let bot_load_default_plugins ← readField lines
    "MARVIN_BOT_LOAD_DEFAULT_PLUGINS" (parsePyBool "bot_load_default_plugins")
  pure { home := home, test_mode := test_mode, verbose := verbose,
         log_level := log_level, log_console_width := log_console_width,
         llm_model := llm_model, llm_backend := llm_backend,
         llm_max_tokens := llm_max_tokens, llm_temperature := llm_temperature,
         llm_model_for_response_format := llm_model_for_response_format,
         embeddings_cache_path := embeddings_cache_path,
         openai_api_key := openai_api_key, chroma := none,
         database_connection_url := database_connection_url,
         database_check_migration_version_on_startup :=
           database_check_migration_version_on_startup,
         bot_create_profile_picture := bot_create_profile_picture,
         bot_load_default_plugins := bot_load_default_plugins }

/-- Reconstruct settings from an exported env file alone. -/
def reloadSettings (homeDefault : PyPath) (lines : List (String × String))
    (fs : FS) : Except PyError (Settings × FS) := do
  let inp ← rawInputFromLines lines
  constructSettings homeDefault inp fs

/-- A dynamically-typed Python value as held in the settings object's
instance `__dict__`.  `chromaModel` is a live `ChromaSettings` model
instance; `chromaDict` is the plain Python dict with the same content
that pydantic's `.dict()` serialization produces from it — distinct
runtime values of distinct types. -/
inductive PyValue where
  | vpath (p : PyPath)
  | vbool (b : Bool)
  | vstr (s : String)
  | vint (n : Int)
  | vfloat (q : PyFloat)
  | vnone
  | vsecret (s : SecretStr)
  | vbackend (b : LLMBackend)
  | chromaModel (c : ChromaFields)
  | chromaDict (c : ChromaFields)
deriving DecidableEq, Repr

/-- The instance `__dict__`: an insertion-ordered mapping from attribute
name to value. -/
abbrev PyDict := List (String × PyValue)

/-- Python dict lookup. -/
def pyDictGet (d : PyDict) (k : String) : Option PyValue :=
  match d with
  | [] => none
  | (k2, v) :: rest => if k2 = k then some v else pyDictGet rest k

/-- Python dict item assignment: replace in place, or append a new key. -/
def pyDictSet (d : PyDict) (k : String) (v : PyValue) : PyDict :=
  match d with
  | [] => [(k, v)]
  | (k2, v2) :: rest =>
    if k2 = k then (k2, v) :: rest else (k2, v2) :: pyDictSet rest k v

/-- Python's `dict.update`: assign every pair of the argument in order. -/
def pyDictUpdate (d kw : PyDict) : PyDict :=
  kw.foldl (fun acc p => pyDictSet acc p.1 p.2) d

/-- Whether the dict's keys are pairwise distinct (true of every real
Python dict). -/
def keysNodup (d : PyDict) : Bool :=
  (d.map Prod.fst).Nodup

/-- pydantic v1 `.dict()` serialization of one value: a nested model
becomes a plain dict of its fields; every other value of this module is
returned as-is (`SecretStr`, `Path` and `Enum` members pass through
`_get_value` unchanged). -/
def serializeValue : PyValue → PyValue
  | PyValue.chromaModel c => PyValue.chromaDict c
  | v => v

/-- pydantic v1 `self.dict()`: iterate the instance `__dict__` and
serialize each value. -/
def pyDictSerialize (d : PyDict) : PyDict :=
  d.map (fun p => (p.1, serializeValue p.2))

/-- Python `==` on the values compared here.  pydantic v1 defines
`BaseModel.__eq__(other)` as `self.dict() == other.dict()` for another
model and `self.dict() == other` for anything else, so a model instance
compares equal to the plain dict holding the same field values; all
other comparisons in this module are between values of the same kind
and are structural. -/
def pyEq (a b : PyValue) : Bool :=
  match a, b with
  | PyValue.chromaModel c1, PyValue.chromaDict c2 => decide (c1 = c2)
  | PyValue.chromaDict c1, PyValue.chromaModel c2 => decide (c1 = c2)
  | x, y => decide (x = y)

/-- What running a scope body does: transform the live `__dict__`,
either finishing normally with the mutated state or raising an error
from some (also mutated) state. -/
abbrev ScopeBody := PyDict → Except (PyError × PyDict) PyDict

/-- The outcome of one `with temporary_settings(**kwargs): body` use:
the error the body raised, if any (it propagates after restoration),
and the live `__dict__` after the scope exited. -/
structure ScopeResult where
  raised : Option PyError
  final : PyDict
deriving Repr

/-- `temporary_settings` (config.py lines 363-371): snapshot
`settings.dict()`, apply the overrides directly onto the instance
`__dict__` (no validation — `dict.update` is total, so applying the
overrides cannot fail partway), run the body, and on every exit path
clear the `__dict__` and refill it from the snapshot. -/
def temporary_settings (kwargs : PyDict) (body : ScopeBody) (s : PyDict) :
    ScopeResult :=
  let old_settings := pyDictSerialize s
  let s1 := pyDictUpdate s kwargs
  match body s1 with
  | Except.ok _s2 => { raised := none, final := pyDictUpdate [] old_settings }
  | Except.error (e, _s2) => { raised := some e, final := pyDictUpdate [] old_settings }

/-- The declared type of each embedded field, for the type-consistency
invariant. -/
inductive FieldKind where
  | kpath
  | kbool
  | kstr
  | koptInt
  | kint
  | kfloat
  | kbackend
  | koptSecret
  | ksecret
  | kchroma
deriving DecidableEq, Repr

/-- Whether a runtime value is consistent with a declared field type.
A plain dict is not an instance of the nested model class
`ChromaSettings`. -/
def kindMatches : FieldKind → PyValue → Bool
  | FieldKind.kpath, PyValue.vpath _ => true
  | FieldKind.kbool, PyValue.vbool _ => true
  | FieldKind.kstr, PyValue.vstr _ => true
  | FieldKind.koptInt, PyValue.vint _ => true
  | FieldKind.koptInt, PyValue.vnone => true
  | FieldKind.kint, PyValue.vint _ => true
  | FieldKind.kfloat, PyValue.vfloat _ => true
  | FieldKind.kfloat, PyValue.vint _ => true
  | FieldKind.kbackend, PyValue.vbackend _ => true
  | FieldKind.koptSecret, PyValue.vsecret _ => true
  | FieldKind.koptSecret, PyValue.vnone => true
  | FieldKind.ksecret, PyValue.vsecret _ => true
  | FieldKind.kchroma, PyValue.chromaModel _ => true
  | _, _ => false

/-- The embedded field schema: each field's name and declared type, in
declaration order. -/
def schemaFields : List (String × FieldKind) :=
  [("home", FieldKind.kpath),
   ("test_mode", FieldKind.kbool),
   ("verbose", FieldKind.kbool),
   ("log_level", FieldKind.kstr),
   ("log_console_width", FieldKind.koptInt),
   ("llm_model", FieldKind.kstr),
   ("llm_backend", FieldKind.kbackend),
   ("llm_max_tokens", FieldKind.kint),
   ("llm_temperature", FieldKind.kfloat),
   ("llm_model_for_response_format", FieldKind.kstr),
   ("embeddings_cache_path", FieldKind.kpath),
   ("openai_api_key", FieldKind.koptSecret),
   ("chroma", FieldKind.kchroma),
   ("database_connection_url", FieldKind.ksecret),
   ("database_check_migration_version_on_startup", FieldKind.kbool),
   ("bot_create_profile_picture", FieldKind.kbool),
   ("bot_load_default_plugins", FieldKind.kbool)]

/-- Declared type of one field. -/
def schemaKind (k : String) : Option FieldKind :=
  (schemaFields.find? (fun p => p.1 = k)).map (fun p => p.2)

/-- One field of a `__dict__` holds a value consistent with its declared
type. -/
def fieldOk (d : PyDict) (k : String) (kd : FieldKind) : Bool :=
  match pyDictGet d k with
  | some v => kindMatches kd v
  | none => false

/-- The type-consistency invariant: every declared field is present and
holds a value consistent with its declared type. -/
def schemaWellTyped (d : PyDict) : Bool :=
  schemaFields.all (fun p => fieldOk d p.1 p.2)

/-- The invariant on every declared field except the nested `chroma`
model. -/
def schemaWellTypedExceptChroma (d : PyDict) : Bool :=
  (schemaFields.filter (fun p => p.1 ≠ "chroma")).all (fun p => fieldOk d p.1 p.2)

/-- Whether one value is consistent with the declared type of the field
named, keys outside the schema being unconstrained. -/
def valueMatchesSchema (k : String) (v : PyValue) : Bool :=
  match schemaKind k with
  | some kd => kindMatches kd v
  | none => true

/-- Whether every override pair carries a value consistent with the
declared type of the field it targets (keys outside the schema are
unconstrained additions). -/
def kwargsWellTyped (kw : PyDict) : Bool :=
  kw.all (fun p => valueMatchesSchema p.1 p.2)

/-- pydantic v1 type coercion on assignment (`validate_assignment=True`):
the value kinds each embedded field type accepts, and the coerced value
stored.  Accepting fewer coercions than pydantic would is conservative:
every acceptance modelled here is one pydantic performs. -/
def coerceValue : FieldKind → PyValue → Option PyValue
  | FieldKind.kpath, PyValue.vpath p => some (PyValue.vpath p)
  | FieldKind.kpath, PyValue.vstr s => some (PyValue.vpath (pathOfString s))
  | FieldKind.kbool, PyValue.vbool b => some (PyValue.vbool b)
  | FieldKind.kstr, PyValue.vstr s => some (PyValue.vstr s)
  | FieldKind.koptInt, PyValue.vint n => some (PyValue.vint n)
  | FieldKind.koptInt, PyValue.vnone => some PyValue.vnone
  | FieldKind.kint, PyValue.vint n => some (PyValue.vint n)
  | FieldKind.kfloat, PyValue.vfloat q => some (PyValue.vfloat q)
  | FieldKind.kfloat, PyValue.vint n => some (PyValue.vfloat ⟨n, 0⟩)
  | FieldKind.kbackend, PyValue.vbackend b => some (PyValue.vbackend b)
  | FieldKind.kbackend, PyValue.vstr s =>
    match parsePyBackend "llm_backend" s with
    | Except.ok b => some (PyValue.vbackend b)
    | Except.error _ => none
  | FieldKind.koptSecret, PyValue.vsecret s => some (PyValue.vsecret s)
  | FieldKind.koptSecret, PyValue.vstr s => some (PyValue.vsecret (SecretStr.mk s))
  | FieldKind.koptSecret, PyValue.vnone => some PyValue.vnone
  | FieldKind.ksecret, PyValue.vsecret s => some (PyValue.vsecret s)
  | FieldKind.ksecret, PyValue.vstr s => some (PyValue.vsecret (SecretStr.mk s))
  | FieldKind.kchroma, PyValue.chromaModel c => some (PyValue.chromaModel c)
  | _, _ => none

/-- Attribute assignment through the validating setter
(`validate_assignment=True` plus the `__setattr__` override, whose extra
logging side effect does not touch the stored values): coerce the value
to the field's declared type and store it, or raise. -/
def setattrValidated (d : PyDict) (k : String) (v : PyValue) :
    Except PyError PyDict :=
  match schemaKind k with
  | none => Except.error (PyError.valueError "object has no field")
  | some kd =>
    match coerceValue kd v with
    | some v2 => Except.ok (pyDictSet d k v2)
    | none => Except.error (PyError.coercionError k)

/-- The instance `__dict__` of a typed, resolved settings object. -/
def settingsToDict (s : Settings) : PyDict :=
  [("home", PyValue.vpath s.home),
   ("test_mode", PyValue.vbool s.test_mode),
   ("verbose", PyValue.vbool s.verbose),
   ("log_level", PyValue.vstr s.log_level),
   ("log_console_width",
     match s.log_console_width with
     | none => PyValue.vnone
     | some n => PyValue.vint n),
   ("llm_model", PyValue.vstr s.llm_model),
   ("llm_backend", PyValue.vbackend s.llm_backend),
   ("llm_max_tokens", PyValue.vint s.llm_max_tokens),
   ("llm_temperature", PyValue.vfloat s.llm_temperature),
   ("llm_model_for_response_format", PyValue.vstr s.llm_model_for_response_format),
   ("embeddings_cache_path", PyValue.vpath s.embeddings_cache_path),
   ("openai_api_key",
     match s.openai_api_key with
     | none => PyValue.vnone
     | some sec => PyValue.vsecret sec),
   ("chroma", PyValue.chromaModel s.chroma),
   ("database_connection_url", PyValue.vsecret s.database_connection_url),
   ("database_check_migration_version_on_startup",
     PyValue.vbool s.database_check_migration_version_on_startup),
   ("bot_create_profile_picture", PyValue.vbool s.bot_create_profile_picture),
   ("bot_load_default_plugins", PyValue.vbool s.bot_load_default_plugins)]

/-- A stand-in for the expanded declared home default
`Path("~/.marvin").expanduser()`. -/
def hd0 : PyPath := ⟨true, ["home", "user", ".marvin"]⟩

/-- An arbitrary settings literal, used only as the default of
`okSettings` in closed statements whose construction is proven to
succeed. -/
def dfltSettings : Settings :=
  { home := hd0, test_mode := false, verbose := false, log_level := "INFO",
    log_console_width := none, llm_model := "gpt-3.5-turbo",
    llm_backend := LLMBackend.OpenAIChat, llm_max_tokens := 1250,
    llm_temperature := ⟨8, 1⟩, llm_model_for_response_format := "gpt-3.5-turbo",
    embeddings_cache_path := ⟨false, ["cache", "embeddings.sqlite"]⟩,
    openai_api_key := none, chroma := {},
    database_connection_url := SecretStr.mk DEFAULT_DB_CONNECTION_URL,
    database_check_migration_version_on_startup := true,
    bot_create_profile_picture := false, bot_load_default_plugins := true }

/-- The settings object produced by an all-defaults construction. -/
def c6resolved : Settings := okSettings (constructSettings hd0 {} []) dfltSettings

/-- A concrete fully resolved settings object (the all-defaults
resolution, written out) used as a live `__dict__` in closed scope
statements. -/
def sampleSettings : Settings :=
  { home := ⟨true, ["home", "user", ".marvin"]⟩, test_mode := false,
    verbose := false, log_level := "INFO", log_console_width := none,
    llm_model := "gpt-3.5-turbo", llm_backend := LLMBackend.OpenAIChat,
    llm_max_tokens := 1250, llm_temperature := ⟨8, 1⟩,
    llm_model_for_response_format := "gpt-3.5-turbo",
    embeddings_cache_path :=
      ⟨true, ["home", "user", ".marvin", "cache", "embeddings.sqlite"]⟩,
    openai_api_key := none,
    chroma := { persist_directory := "/home/user/.marvin/chroma" },
    database_connection_url :=
      SecretStr.mk "sqlite+aiosqlite://///home/user/.marvin/marvin.sqlite",
    database_check_migration_version_on_startup := true,
    bot_create_profile_picture := false, bot_load_default_plugins := true }

/-- The live `__dict__` of `sampleSettings`. -/
def sampleState : PyDict := settingsToDict sampleSettings

/-- A scope body that mutates a field the caller never overrode and then
raises. -/
def raisingBody : ScopeBody := fun d =>
  Except.error (PyError.valueError "boom",
    pyDictSet d "llm_model" (PyValue.vstr "mutated-inside-scope"))

/-- A scope body that mutates a field the caller never overrode and
finishes normally. -/
def mutatingBody : ScopeBody := fun d =>
  Except.ok (pyDictSet d "verbose" (PyValue.vbool true))

/-- Extract a successful validated assignment (defaulting otherwise). -/
def okPyDict (r : Except PyError PyDict) (d : PyDict) : PyDict :=
  match r with
  | Except.ok d2 => d2
  | Except.error _ => d

/-- Explicit values for the whole test-mode-overridden field cluster,
with an `llm_model` no inference rule recognizes. -/
def c3cexInput : RawInput :=
  { test_mode := some true, llm_model := some "zzz-unknown-model",
    llm_temperature := some ⟨5, 1⟩, bot_create_profile_picture := some true,
    database_check_migration_version_on_startup := some true }

/-- Explicit values for the whole test-mode-overridden field cluster,
with an inferable `llm_model`. -/
def c3okInput : RawInput :=
  { test_mode := some true, llm_model := some "claude-v1",
    llm_temperature := some ⟨5, 1⟩, bot_create_profile_picture := some true,
    database_check_migration_version_on_startup := some true }

/-- The concrete scenario of the specification: primary model `gpt-4`
supplied, nothing else. -/
def c5input : RawInput := { llm_model := some "gpt-4" }

/-- The concrete scenario of the specification: home `/home/user/.app`,
relative cache path `cache/embeddings.db`. -/
def c7input : RawInput :=
  { home := some ⟨true, ["home", "user", ".app"]⟩,
    embeddings_cache_path := some ⟨false, ["cache", "embeddings.db"]⟩ }

/-- A connection secret with two placeholder occurrences, and an
explicit home. -/
def c8input : RawInput :=
  { home := some ⟨true, ["h"]⟩,
    database_connection_url :=
      some (SecretStr.mk "db://$MARVIN_HOME/a?shadow=$MARVIN_HOME") }

/-- Decidable equality of embedded call results. -/
instance {e a : Type} [DecidableEq e] [DecidableEq a] : DecidableEq (Except e a) :=
  fun x y =>
  match x, y with
  | Except.ok v, Except.ok w =>
    if h : v = w then isTrue (by rw [h]) else isFalse (fun hc => h (Except.ok.inj hc))
  | Except.error v, Except.error w =>
    if h : v = w then isTrue (by rw [h]) else isFalse (fun hc => h (Except.error.inj hc))
  | Except.ok _, Except.error _ => isFalse (fun hc => Except.noConfusion hc)
  | Except.error _, Except.ok _ => isFalse (fun hc => Except.noConfusion hc)

/-- Looking a key up after an assignment. -/
theorem pyDictGet_set (d : PyDict) (k : String) (v : PyValue) (k2 : String) :
    pyDictGet (pyDictSet d k v) k2 = if k = k2 then some v else pyDictGet d k2 := by
  induction d with
  | nil => rfl
  | cons hd tl ih =>
    obtain ⟨a, b⟩ := hd
    simp only [pyDictSet]
    by_cases hak : a = k
    · subst hak
      simp only [if_pos rfl, pyDictGet]
      by_cases h2 : a = k2
      · simp [h2]
      · simp [h2]
    · simp only [if_neg hak, pyDictGet]
      by_cases h2 : a = k2
      · subst h2
        have hka : ¬ k = a := fun hh => hak hh.symm
        simp [hka]
      · simp [h2, ih]

/-- Looking a key up in a concatenation. -/
theorem pyDictGet_append (d1 d2 : PyDict) (k : String) :
    pyDictGet (d1 ++ d2) k =
      match pyDictGet d1 k with
      | some v => some v
      | none => pyDictGet d2 k := by
  induction d1 with
  | nil => simp [pyDictGet]
  | cons hd tl ih =>
    obtain ⟨a, b⟩ := hd
    by_cases h : a = k <;> simp [pyDictGet, h, ih]

/-- Assigning an absent key appends it. -/
theorem pyDictSet_of_get_none (d : PyDict) (k : String) (v : PyValue)
    (h : pyDictGet d k = none) : pyDictSet d k v = d ++ [(k, v)] := by
  induction d with
  | nil => simp [pyDictSet]
  | cons hd tl ih =>
    obtain ⟨a, b⟩ := hd
    simp only [pyDictGet] at h
    by_cases hak : a = k
    · simp [hak] at h
    · simp only [pyDictSet, if_neg hak, List.cons_append, List.cons.injEq, true_and]
      exact ih (by simpa [hak] using h)

/-- Updating with pairwise-distinct, fresh keys concatenates them in
order. -/
theorem pyDictUpdate_of_fresh (kw : PyDict) : ∀ (acc : PyDict),
    (∀ p ∈ kw, pyDictGet acc p.1 = none) → keysNodup kw = true →
    pyDictUpdate acc kw = acc ++ kw := by
  induction kw with
  | nil => intro acc _ _; simp [pyDictUpdate]
  | cons hd tl ih =>
    intro acc hfresh hnd
    obtain ⟨k, v⟩ := hd
    have hk : pyDictGet acc k = none := hfresh (k, v) (by simp)
    have hset : pyDictSet acc k v = acc ++ [(k, v)] := pyDictSet_of_get_none acc k v hk
    simp only [keysNodup, List.map_cons, List.nodup_cons, decide_eq_true_eq] at hnd
    have hnd2 : keysNodup tl = true := by
      simp only [keysNodup, decide_eq_true_eq]
      exact hnd.2
    have hknotin : k ∉ tl.map Prod.fst := hnd.1
    have hfresh2 : ∀ p ∈ tl, pyDictGet (acc ++ [(k, v)]) p.1 = none := by
      intro p hp
      rw [pyDictGet_append]
      have h1 : pyDictGet acc p.1 = none := hfresh p (by simp [hp])
      have h2 : ¬ k = p.1 := by
        intro hcontra
        exact hknotin (hcontra ▸ List.mem_map_of_mem Prod.fst hp)
      simp [h1, pyDictGet, h2]
    calc pyDictUpdate acc ((k, v) :: tl)
        = pyDictUpdate (pyDictSet acc k v) tl := rfl
      _ = pyDictUpdate (acc ++ [(k, v)]) tl := by rw [hset]
      _ = (acc ++ [(k, v)]) ++ tl := ih (acc ++ [(k, v)]) hfresh2 hnd2
      _ = acc ++ ((k, v) :: tl) := by simp

/-- Refilling an empty dict from a duplicate-free snapshot reproduces
the snapshot. -/
theorem pyDictUpdate_nil (d : PyDict) (h : keysNodup d = true) :
    pyDictUpdate [] d = d := by
  have := pyDictUpdate_of_fresh d [] (by intro p _; rfl) h
  simpa using this

/-- Serialization keeps the keys. -/
theorem keysNodup_serialize (d : PyDict) :
    keysNodup (pyDictSerialize d) = keysNodup d := by
  have h : List.map Prod.fst (pyDictSerialize d) = List.map Prod.fst d := by
    induction d with
    | nil => rfl
    | cons hd tl ih => simp [pyDictSerialize, ih]
  simp [keysNodup, h]

/-- Looking a key up in the serialized snapshot. -/
theorem pyDictGet_serialize (d : PyDict) (k : String) :
    pyDictGet (pyDictSerialize d) k = (pyDictGet d k).map serializeValue := by
  induction d with
  | nil => simp [pyDictGet, pyDictSerialize]
  | cons hd tl ih =>
    obtain ⟨a, b⟩ := hd
    by_cases h : a = k
    · simp [pyDictSerialize, pyDictGet, h]
    · simp only [pyDictSerialize, List.map_cons, pyDictGet, if_neg h] at ih ⊢
      exact ih

/-- A serialized value compares Python-equal to the original: the only
value `.dict()` rewrites is the nested model, and pydantic's
`BaseModel.__eq__` equates a model with the plain dict of its fields. -/
theorem pyEq_serializeValue (v : PyValue) : pyEq (serializeValue v) v = true := by
  cases v <;> simp [serializeValue, pyEq]

/-- On every exit path, `temporary_settings` leaves the live `__dict__`
equal to the `.dict()` snapshot taken at entry. -/
theorem temporary_settings_final (kwargs : PyDict) (body : ScopeBody)
    (s : PyDict) (h : keysNodup s = true) :
    (temporary_settings kwargs body s).final = pyDictSerialize s := by
  have hnd : keysNodup (pyDictSerialize s) = true := by
    rw [keysNodup_serialize]; exact h
  cases hbody : body (pyDictUpdate s kwargs) with
  | ok d2 => simp [temporary_settings, hbody, pyDictUpdate_nil _ hnd]
  | error p =>
    obtain ⟨e, d2⟩ := p
    simp [temporary_settings, hbody, pyDictUpdate_nil _ hnd]

/-- A matched model-name prefix pins down the first character of the
model name. -/
theorem startswith_head (m p : String) (c : Char) (cs : List Char)
    (hp : p.data = c :: cs) (h : startswith m p = true) :
    ∃ t, m.data = c :: t := by
  unfold startswith at h
  rw [List.isPrefixOf_iff_prefix, hp] at h
  obtain ⟨t, ht⟩ := h
  exact ⟨cs ++ t, by rw [← ht]; rfl⟩

/-- Two candidate prefixes that disagree on their first character cannot
both match. -/
theorem startswith_false_of_head_ne (m p1 p2 : String) (c1 c2 : Char)
    (cs1 cs2 : List Char) (h1 : p1.data = c1 :: cs1) (h2 : p2.data = c2 :: cs2)
    (hne : c1 ≠ c2) (hm : startswith m p1 = true) : startswith m p2 = false := by
  cases hsw : startswith m p2 with
  | false => rfl
  | true =>
    obtain ⟨t1, ht1⟩ := startswith_head m p1 c1 cs1 h1 hm
    obtain ⟨t2, ht2⟩ := startswith_head m p2 c2 cs2 h2 hsw
    rw [ht1] at ht2
    injection ht2 with hc _
    exact absurd hc hne

/-- `mkdir(parents=True, exist_ok=True)` makes the directory itself
exist. -/
theorem mem_mkdirParents_self (p : PyPath) (fs : FS) : p ∈ mkdirParents p fs := by
  unfold mkdirParents
  apply List.mem_append_left
  apply List.mem_map.mpr
  exact ⟨p.parts.length, List.mem_range.mpr (Nat.lt_succ_self _), by simp⟩

/-- `mkdir` never removes an existing directory. -/
theorem mem_mkdirParents_mono (q p : PyPath) (fs : FS) (h : q ∈ fs) :
    q ∈ mkdirParents p fs :=
  List.mem_append_right _ h

/-- Every schema entry is what `schemaKind` reports for its name (the
schema's keys are pairwise distinct). -/
theorem schemaKind_of_mem : ∀ p ∈ schemaFields, schemaKind p.1 = some p.2 := by
  decide

/-- A value accepted by assignment coercion is consistent with the
field's declared type. -/
theorem kindMatches_coerce (kd : FieldKind) (v v2 : PyValue)
    (h : coerceValue kd v = some v2) : kindMatches kd v2 = true := by
  cases kd <;> cases v <;> simp only [coerceValue] at h <;>
    (try split at h) <;>
    first
      | (injection h with h2; cases h2; rfl)
      | (injection h)

/-- Installing a value consistent with the target field's declared type
preserves per-field type consistency across a field list. -/
theorem all_fieldOk_set (L : List (String × FieldKind)) (d : PyDict)
    (k : String) (v : PyValue)
    (hL : L.all (fun p => fieldOk d p.1 p.2) = true)
    (hk : ∀ kd2, (k, kd2) ∈ L → kindMatches kd2 v = true) :
    L.all (fun p => fieldOk (pyDictSet d k v) p.1 p.2) = true := by
  induction L with
  | nil => rfl
  | cons hd tl ih =>
    obtain ⟨f, kd⟩ := hd
    simp only [List.all_cons, Bool.and_eq_true] at hL ⊢
    refine ⟨?_, ih hL.2 (fun kd2 hmem => hk kd2 (List.mem_cons_of_mem _ hmem))⟩
    unfold fieldOk
    rw [pyDictGet_set]
    by_cases hkf : k = f
    · rw [if_pos hkf]
      exact hk kd (by rw [hkf]; exact List.mem_cons_self _ _)
    · rw [if_neg hkf]
      exact hL.1

/-- Assigning a value consistent with the target's declared type (or a
value for a key outside the schema) preserves the type-consistency
invariant. -/
theorem schemaWellTyped_set (d : PyDict) (k : String) (v : PyValue)
    (hwt : schemaWellTyped d = true) (hv : valueMatchesSchema k v = true) :
    schemaWellTyped (pyDictSet d k v) = true := by
  apply all_fieldOk_set _ _ _ _ hwt
  intro kd2 hmem
  have hsk := schemaKind_of_mem (k, kd2) hmem
  unfold valueMatchesSchema at hv
  rw [hsk] at hv
  exact hv

/-- A `dict.update` whose pairs all respect the schema preserves the
type-consistency invariant. -/
theorem schemaWellTyped_update (kw : PyDict) : ∀ (d : PyDict),
    schemaWellTyped d = true → kwargsWellTyped kw = true →
    schemaWellTyped (pyDictUpdate d kw) = true := by
  induction kw with
  | nil => intro d hd _; exact hd
  | cons hd tl ih =>
    intro d hwt hkw
    obtain ⟨k, v⟩ := hd
    simp only [kwargsWellTyped, List.all_cons, Bool.and_eq_true] at hkw
    have htl : kwargsWellTyped tl = true := hkw.2
    exact ih (pyDictSet d k v) (schemaWellTyped_set d k v hwt hkw.1) htl

/-- `.dict()` serialization only rewrites nested-model values. -/
theorem kindMatches_serialize (kd : FieldKind) (v : PyValue)
    (hkd : kd ≠ FieldKind.kchroma) (h : kindMatches kd v = true) :
    serializeValue v = v := by
  cases kd <;> cases v <;> simp_all [kindMatches, serializeValue]

/-- Serializing the dict preserves per-field type consistency for every
non-nested-model field. -/
theorem all_fieldOk_serialize (L : List (String × FieldKind)) (d : PyDict)
    (hL : L.all (fun p => fieldOk d p.1 p.2) = true)
    (hkinds : ∀ p ∈ L, p.2 ≠ FieldKind.kchroma) :
    L.all (fun p => fieldOk (pyDictSerialize d) p.1 p.2) = true := by
  induction L with
  | nil => rfl
  | cons hd tl ih =>
    obtain ⟨f, kd⟩ := hd
    simp only [List.all_cons, Bool.and_eq_true] at hL ⊢
    refine ⟨?_, ih hL.2 (fun p hp => hkinds p (List.mem_cons_of_mem _ hp))⟩
    have h1 := hL.1
    unfold fieldOk at h1 ⊢
    rw [pyDictGet_serialize]
    cases hget : pyDictGet d f with
    | none => rw [hget] at h1; simp at h1
    | some v =>
      rw [hget] at h1
      have hkd : kd ≠ FieldKind.kchroma := hkinds (f, kd) (List.mem_cons_self _ _)
      simp only [Option.map_some']
      rw [kindMatches_serialize kd v hkd h1]
      exact h1

/-- The dict of any typed settings object satisfies the
type-consistency invariant. -/
theorem settingsToDict_wellTyped (s : Settings) :
    schemaWellTyped (settingsToDict s) = true := by
  obtain ⟨f1, f2, f3, f4, f5, f6, f7, f8, f9, f10, f11, f12, f13, f14, f15, f16, f17⟩ := s
  cases f5 <;> cases f12 <;> rfl

/-- Unfolding construction into the backend resolution and the two root
validators. -/
theorem constructSettings_eq (hd : PyPath) (inp : RawInput) (fs : FS) :
    constructSettings hd inp fs =
      match validator_llm_backend inp.llm_backend (inp.llm_model.getD "gpt-3.5-turbo") with
      | Except.error e => Except.error e
      | Except.ok b =>
        Except.ok (test_mode_settings (initial_setup (resolveFields hd inp b) fs).1,
                   (initial_setup (resolveFields hd inp b) fs).2) := by
  unfold constructSettings
  cases validator_llm_backend inp.llm_backend (inp.llm_model.getD "gpt-3.5-turbo") <;> rfl

/-- A model name starting with a given character cannot match a prefix
starting with a different one. -/
theorem startswith_false_of_head (m p : String) (c c2 : Char) (cs : List Char)
    (hp : p.data = c2 :: cs) (t : List Char) (hm : m.data = c :: t)
    (hne : c ≠ c2) : startswith m p = false := by
  cases hsw : startswith m p with
  | false => rfl
  | true =>
    obtain ⟨t2, ht2⟩ := startswith_head m p c2 cs hp hsw
    rw [hm] at ht2
    injection ht2 with hc _
    exact absurd hc hne

/-- A model name outside every recognized family makes the inference
helper raise its `ValueError`. -/
theorem infer_error_of_unknown (m : String) (h : knownModelFamily m = false) :
    infer_llm_backend (some m) =
      Except.error (PyError.valueError
        "No LLM backend provided and could not infer one from `llm_model`.") := by
  simp only [knownModelFamily, Bool.or_eq_false_iff] at h
  obtain ⟨⟨⟨⟨⟨⟨h1, h2⟩, h3⟩, h4⟩, h5⟩, h6⟩, h7⟩ := h
  simp [infer_llm_backend, h1, h2, h3, h4, h5, h6, h7]

/-- Claim C10: the backend-inference function declares `model: str = None`;
invoked with `None` it raises `AttributeError` (from calling `startswith`
on `None`), not a backend and not the documented `ValueError`; with any
actual string argument it never raises `AttributeError`. -/
theorem C10_none_model_arg :
    infer_llm_backend none = Except.error PyError.attributeError
    ∧ (∀ m : String, raisedAttributeError (infer_llm_backend (some m)) = false) := by
  refine ⟨rfl, ?_⟩
  intro m
  cases h1 : startswith m "gpt-3" <;>
  cases h2 : startswith m "gpt-4" <;>
  cases h3 : startswith m "text-davinci" <;>
  cases h4 : startswith m "text-curie" <;>
  cases h5 : startswith m "text-babbage" <;>
  cases h6 : startswith m "text-ada" <;>
  cases h7 : startswith m "claude" <;>
    simp [infer_llm_backend, raisedAttributeError, h1, h2, h3, h4, h5, h6, h7]

/-- Claim C4, counterexample: with a relative home directory (reachable,
since a `MARVIN_HOME` environment value is coerced to a `Path` but never
made absolute), prefixing a relative path twice differs from prefixing
it once. -/
theorem C4_counterexample :
    normalize_path_field ⟨false, ["h"]⟩
        (normalize_path_field ⟨false, ["h"]⟩ ⟨false, ["c"]⟩)
      = PyPath.mk false ["h", "h", "c"]
    ∧ normalize_path_field ⟨false, ["h"]⟩ ⟨false, ["c"]⟩ = PyPath.mk false ["h", "c"]
    ∧ decide (normalize_path_field ⟨false, ["h"]⟩
        (normalize_path_field ⟨false, ["h"]⟩ ⟨false, ["c"]⟩)
      = normalize_path_field ⟨false, ["h"]⟩ ⟨false, ["c"]⟩) = false := by
  decide

/-- Claim C4, amended: the home-prefixing normalization is idempotent
provided the home directory is an absolute path, and normalizing an
already-absolute field value is unconditionally a no-op. -/
theorem C4_idempotent (home p : PyPath) :
    (home.is_absolute = true →
      normalize_path_field home (normalize_path_field home p)
        = normalize_path_field home p)
    ∧ (p.is_absolute = true → normalize_path_field home p = p) := by
  refine ⟨?_, ?_⟩
  · intro habs
    unfold normalize_path_field
    by_cases hp : p.is_absolute = true
    · rw [if_pos hp, if_pos hp]
    · rw [if_neg hp]
      have hj : (home.join p).is_absolute = true := by
        unfold PyPath.join
        unfold PyPath.is_absolute at *
        rw [if_neg (by simpa using hp)]
        exact habs
      rw [if_pos hj]
  · intro hp
    unfold normalize_path_field
    rw [if_pos hp]

/-- Witness for C4's amended statement at concrete paths. -/
theorem C4_idempotent_witness :
    normalize_path_field ⟨true, ["a"]⟩
        (normalize_path_field ⟨true, ["a"]⟩ ⟨false, ["b"]⟩)
      = normalize_path_field ⟨true, ["a"]⟩ ⟨false, ["b"]⟩
    ∧ normalize_path_field ⟨true, ["a"]⟩ ⟨true, ["z"]⟩ = ⟨true, ["z"]⟩ :=
  ⟨(C4_idempotent ⟨true, ["a"]⟩ ⟨false, ["b"]⟩).1 rfl,
   (C4_idempotent ⟨true, ["a"]⟩ ⟨true, ["z"]⟩).2 rfl⟩

/-- Claim C2: for every model name with a recognized prefix and no
explicit backend, inference returns the documented backend for that
family (gpt-3/gpt-4 families get OpenAIChat, the text-davinci,
text-curie, text-babbage, text-ada family gets OpenAI, the claude
family gets Anthropic); for every model name matching no recognized
prefix, inference raises the inference-failure error and settings
construction with no explicit backend fails. -/
theorem C2_backend_inference : ∀ m : String,
    ((startswith m "gpt-3" || startswith m "gpt-4") = true →
      infer_llm_backend (some m) = Except.ok LLMBackend.OpenAIChat)
    ∧ ((startswith m "text-davinci" || startswith m "text-curie"
        || startswith m "text-babbage" || startswith m "text-ada") = true →
      infer_llm_backend (some m) = Except.ok LLMBackend.OpenAI)
    ∧ (startswith m "claude" = true →
      infer_llm_backend (some m) = Except.ok LLMBackend.Anthropic)
    ∧ (knownModelFamily m = false →
      infer_llm_backend (some m) =
        Except.error (PyError.valueError
          "No LLM backend provided and could not infer one from `llm_model`."))
    ∧ (∀ hd inp fs, knownModelFamily m = false → inp.llm_model = some m →
        inp.llm_backend = none → isOkE (constructSettings hd inp fs) = false) := by
  intro m
  refine ⟨?_, ?_, ?_, infer_error_of_unknown m, ?_⟩
  · intro h
    simp [infer_llm_backend, h]
  · intro h
    have hm : ∃ t, m.data = 't' :: t := by
      simp only [Bool.or_eq_true] at h
      rcases h with ((hx | hx) | hx) | hx
      · exact startswith_head m "text-davinci" 't' _ rfl hx
      · exact startswith_head m "text-curie" 't' _ rfl hx
      · exact startswith_head m "text-babbage" 't' _ rfl hx
      · exact startswith_head m "text-ada" 't' _ rfl hx
    obtain ⟨t, ht⟩ := hm
    have hg3 := startswith_false_of_head m "gpt-3" 't' 'g' _ rfl t ht (by decide)
    have hg4 := startswith_false_of_head m "gpt-4" 't' 'g' _ rfl t ht (by decide)
    simp [infer_llm_backend, hg3, hg4, h]
  · intro h
    obtain ⟨t, ht⟩ := startswith_head m "claude" 'c' _ rfl h
    have hg3 := startswith_false_of_head m "gpt-3" 'c' 'g' _ rfl t ht (by decide)
    have hg4 := startswith_false_of_head m "gpt-4" 'c' 'g' _ rfl t ht (by decide)
    have hd1 := startswith_false_of_head m "text-davinci" 'c' 't' _ rfl t ht (by decide)
    have hd2 := startswith_false_of_head m "text-curie" 'c' 't' _ rfl t ht (by decide)
    have hd3 := startswith_false_of_head m "text-babbage" 'c' 't' _ rfl t ht (by decide)
    have hd4 := startswith_false_of_head m "text-ada" 'c' 't' _ rfl t ht (by decide)
    simp [infer_llm_backend, hg3, hg4, hd1, hd2, hd3, hd4, h]
  · intro hd inp fs hfam hmodel hbackend
    rw [constructSettings_eq, hmodel, hbackend]
    simp only [validator_llm_backend, Option.getD_some]
    rw [infer_error_of_unknown m hfam]
    rfl

/-- Witness for C2 at concrete model names of each family and one
unrecognized name. -/
theorem C2_backend_inference_witness :
    infer_llm_backend (some "gpt-3.5-turbo") = Except.ok LLMBackend.OpenAIChat
    ∧ infer_llm_backend (some "gpt-4") = Except.ok LLMBackend.OpenAIChat
    ∧ infer_llm_backend (some "text-davinci-003") = Except.ok LLMBackend.OpenAI
    ∧ infer_llm_backend (some "claude-v1") = Except.ok LLMBackend.Anthropic
    ∧ infer_llm_backend (some "llama-13b") =
        Except.error (PyError.valueError
          "No LLM backend provided and could not infer one from `llm_model`.")
    ∧ isOkE (constructSettings hd0 { llm_model := some "llama-13b" } []) = false :=
  ⟨(C2_backend_inference "gpt-3.5-turbo").1 (by decide),
   (C2_backend_inference "gpt-4").1 (by decide),
   (C2_backend_inference "text-davinci-003").2.1 (by decide),
   (C2_backend_inference "claude-v1").2.2.1 (by decide),
   (C2_backend_inference "llama-13b").2.2.2.1 (by decide),
   (C2_backend_inference "llama-13b").2.2.2.2 hd0 { llm_model := some "llama-13b" } []
     (by decide) rfl rfl⟩

/-- Claim C3, counterexample: supplying explicit values for the whole
overridden cluster with test mode on does not always yield the
test-safe values — an `llm_model` no inference rule recognizes (and no
explicit backend) makes the `llm_backend` field validator raise before
the test-mode root validator ever runs, so construction fails instead
of yielding the fixed values. -/
theorem C3_counterexample :
    constructSettings hd0 c3cexInput [] =
      Except.error (PyError.valueError
        "No LLM backend provided and could not infer one from `llm_model`.")
    ∧ isOkE (constructSettings hd0 c3cexInput []) = false := by
  decide

/-- Claim C3, amended: whenever construction with test mode on
succeeds, the overridden cluster holds the fixed test-safe values —
temperature exactly 0, the fast default model, no profile pictures, no
startup migration check (and the chat backend) — regardless of the
explicitly supplied values, because the test-mode root validator runs
last. -/
theorem C3_test_mode_wins (hd : PyPath) (inp : RawInput) (fs : FS)
    (s : Settings) (fs2 : FS) (hmode : inp.test_mode = some true)
    (hok : constructSettings hd inp fs = Except.ok (s, fs2)) :
    s.llm_temperature = PyFloat.mk 0 1 ∧ s.llm_model = "gpt-3.5-turbo"
    ∧ s.llm_backend = LLMBackend.OpenAIChat
    ∧ s.bot_create_profile_picture = false
    ∧ s.database_check_migration_version_on_startup = false := by
  rw [constructSettings_eq] at hok
  cases hvb : validator_llm_backend inp.llm_backend (inp.llm_model.getD "gpt-3.5-turbo") with
  | error e => rw [hvb] at hok; exact absurd hok (by simp)
  | ok b =>
    rw [hvb] at hok
    simp only [Except.ok.injEq, Prod.mk.injEq] at hok
    obtain ⟨hs, _⟩ := hok
    subst hs
    have htm : (initial_setup (resolveFields hd inp b) fs).1.test_mode = true := by
      simp [initial_setup, resolveFields, hmode]
    simp [test_mode_settings, htm]

/-- Witness for C3's amended statement: the whole cluster explicitly
supplied with contrary values, test mode on, construction succeeding. -/
theorem C3_test_mode_wins_witness :
    (okSettings (constructSettings hd0 c3okInput []) dfltSettings).llm_temperature = PyFloat.mk 0 1
    ∧ (okSettings (constructSettings hd0 c3okInput []) dfltSettings).llm_model
        = "gpt-3.5-turbo"
    ∧ (okSettings (constructSettings hd0 c3okInput []) dfltSettings).llm_backend
        = LLMBackend.OpenAIChat
    ∧ (okSettings (constructSettings hd0 c3okInput []) dfltSettings).bot_create_profile_picture
        = false
    ∧ (okSettings (constructSettings hd0 c3okInput []) dfltSettings).database_check_migration_version_on_startup
        = false :=
  C3_test_mode_wins hd0 c3okInput []
    (okSettings (constructSettings hd0 c3okInput []) dfltSettings)
    (okFS (constructSettings hd0 c3okInput []) []) rfl (by decide)

/-- Claim C5: with no explicit response-formatting model, the resolved
response-formatting model equals the supplied primary model unless the
primary model starts with `gpt-4`, in which case it is the fixed cheaper
`gpt-3.5-turbo`; and a `gpt-4`-prefixed primary model with no explicit
backend resolves the backend to the chat backend `OpenAIChat`. -/
theorem C5_response_format (hd : PyPath) (inp : RawInput) (fs : FS)
    (s : Settings) (fs2 : FS)
    (hok : constructSettings hd inp fs = Except.ok (s, fs2))
    (hnone : inp.llm_model_for_response_format = none) :
    (startswith (inp.llm_model.getD "gpt-3.5-turbo") "gpt-4" = true →
      s.llm_model_for_response_format = "gpt-3.5-turbo")
    ∧ (startswith (inp.llm_model.getD "gpt-3.5-turbo") "gpt-4" = false →
      s.llm_model_for_response_format = inp.llm_model.getD "gpt-3.5-turbo")
    ∧ (inp.llm_backend = none →
        startswith (inp.llm_model.getD "gpt-3.5-turbo") "gpt-4" = true →
      s.llm_backend = LLMBackend.OpenAIChat) := by
  rw [constructSettings_eq] at hok
  cases hvb : validator_llm_backend inp.llm_backend (inp.llm_model.getD "gpt-3.5-turbo") with
  | error e => rw [hvb] at hok; exact absurd hok (by simp)
  | ok b =>
    rw [hvb] at hok
    simp only [Except.ok.injEq, Prod.mk.injEq] at hok
    obtain ⟨hs, _⟩ := hok
    subst hs
    have hrf : ∀ w : Settings,
        (test_mode_settings w).llm_model_for_response_format
          = w.llm_model_for_response_format := by
      intro w
      unfold test_mode_settings
      split <;> rfl
    refine ⟨?_, ?_, ?_⟩
    · intro hgpt4
      rw [hrf]
      simp [initial_setup, resolveFields, hnone,
        validator_llm_model_for_response_format, hgpt4]
    · intro hgpt4
      rw [hrf]
      simp [initial_setup, resolveFields, hnone,
        validator_llm_model_for_response_format, hgpt4]
    · intro hb hgpt4
      have hbval : b = LLMBackend.OpenAIChat := by
        rw [hb] at hvb
        simp only [validator_llm_backend] at hvb
        rw [show infer_llm_backend (some (inp.llm_model.getD "gpt-3.5-turbo"))
            = Except.ok LLMBackend.OpenAIChat by
          simp [infer_llm_backend, hgpt4]] at hvb
        injection hvb with hvb2
        exact hvb2.symm
      subst hbval
      unfold test_mode_settings
      split <;> simp [initial_setup, resolveFields]

/-- Witness for C5 at the specification's concrete scenario: primary
model `gpt-4` supplied, nothing else. -/
theorem C5_response_format_witness :
    (okSettings (constructSettings hd0 c5input []) dfltSettings).llm_model_for_response_format
      = "gpt-3.5-turbo"
    ∧ (okSettings (constructSettings hd0 c5input []) dfltSettings).llm_backend
      = LLMBackend.OpenAIChat :=
  ⟨(C5_response_format hd0 c5input []
      (okSettings (constructSettings hd0 c5input []) dfltSettings)
      (okFS (constructSettings hd0 c5input []) []) (by decide) rfl).1 (by decide),
   (C5_response_format hd0 c5input []
      (okSettings (constructSettings hd0 c5input []) dfltSettings)
      (okFS (constructSettings hd0 c5input []) []) (by decide) rfl).2.2 rfl (by decide)⟩

/-- Claim C7: with a relative embeddings cache path and an absolute
resolved home directory, construction resolves the cache path to the
home directory joined with the relative path (an absolute path beneath
home), and once construction completes both the home directory and the
cache path's containing directory exist on the file system. -/
theorem C7_relative_cache_path (hd : PyPath) (inp : RawInput) (fs : FS)
    (rel : PyPath) (s : Settings) (fs2 : FS)
    (hok : constructSettings hd inp fs = Except.ok (s, fs2))
    (hrel : inp.embeddings_cache_path = some rel)
    (hrelrel : rel.is_absolute = false)
    (habs : (inp.home.getD hd).is_absolute = true) :
    s.home = inp.home.getD hd
    ∧ s.embeddings_cache_path = (inp.home.getD hd).join rel
    ∧ s.embeddings_cache_path.is_absolute = true
    ∧ s.home ∈ fs2
    ∧ s.embeddings_cache_path.parent ∈ fs2 := by
  rw [constructSettings_eq] at hok
  cases hvb : validator_llm_backend inp.llm_backend (inp.llm_model.getD "gpt-3.5-turbo") with
  | error e => rw [hvb] at hok; exact absurd hok (by simp)
  | ok b =>
    rw [hvb] at hok
    simp only [Except.ok.injEq, Prod.mk.injEq] at hok
    obtain ⟨hs, hfs⟩ := hok
    subst hs
    subst hfs
    have hhome : ∀ w : Settings, (test_mode_settings w).home = w.home := by
      intro w; unfold test_mode_settings; split <;> rfl
    have hecp : ∀ w : Settings,
        (test_mode_settings w).embeddings_cache_path = w.embeddings_cache_path := by
      intro w; unfold test_mode_settings; split <;> rfl
    have hresolved :
        (initial_setup (resolveFields hd inp b) fs).1.embeddings_cache_path
          = (inp.home.getD hd).join rel := by
      simp only [initial_setup, resolveFields, normalize_path_field, hrel,
        Option.getD_some]
      rw [if_neg (by rw [hrelrel]; exact Bool.false_ne_true)]
    refine ⟨?_, ?_, ?_, ?_, ?_⟩
    · rw [hhome]
      simp [initial_setup, resolveFields]
    · rw [hecp, hresolved]
    · rw [hecp, hresolved]
      unfold PyPath.join
      rw [if_neg (by unfold PyPath.is_absolute at hrelrel; rw [hrelrel]; exact Bool.false_ne_true)]
      exact habs
    · rw [hhome]
      simp only [initial_setup, resolveFields]
      exact mem_mkdirParents_mono _ _ _ (mem_mkdirParents_self _ _)
    · rw [hecp, hresolved]
      simp only [initial_setup]
      have : normalize_path_field (resolveFields hd inp b).home
          (resolveFields hd inp b).embeddings_cache_path = (inp.home.getD hd).join rel := by
        simp only [resolveFields, normalize_path_field, hrel, Option.getD_some]
        rw [if_neg (by rw [hrelrel]; exact Bool.false_ne_true)]
      rw [this]
      exact mem_mkdirParents_self _ _

/-- Witness for C7 at the specification's concrete scenario: home
`/home/user/.app`, relative cache path `cache/embeddings.db`. -/
theorem C7_relative_cache_path_witness :
    (okSettings (constructSettings hd0 c7input []) dfltSettings).embeddings_cache_path
      = PyPath.mk true ["home", "user", ".app", "cache", "embeddings.db"]
    ∧ (okSettings (constructSettings hd0 c7input []) dfltSettings).home
        ∈ okFS (constructSettings hd0 c7input []) []
    ∧ (okSettings (constructSettings hd0 c7input []) dfltSettings).embeddings_cache_path.parent
        ∈ okFS (constructSettings hd0 c7input []) [] := by
  have h := C7_relative_cache_path hd0 c7input []
    ⟨false, ["cache", "embeddings.db"]⟩
    (okSettings (constructSettings hd0 c7input []) dfltSettings)
    (okFS (constructSettings hd0 c7input []) [])
    (by decide) rfl rfl rfl
  exact ⟨h.2.1.trans (by decide), h.2.2.2.1, h.2.2.2.2⟩

/-- Claim C8: after construction, the database connection secret's
unwrapped value equals the raw connection string with every occurrence
of the `$MARVIN_HOME` placeholder replaced by the rendered resolved
home path, re-wrapped as a secret. -/
theorem C8_secret_interpolation (hd : PyPath) (inp : RawInput) (fs : FS)
    (s : Settings) (fs2 : FS)
    (hok : constructSettings hd inp fs = Except.ok (s, fs2)) :
    s.database_connection_url.get_secret_value
      = replaceStr ((inp.database_connection_url.getD
          (SecretStr.mk DEFAULT_DB_CONNECTION_URL)).get_secret_value)
          "$MARVIN_HOME" (inp.home.getD hd).toStr
    ∧ s.database_connection_url
      = SecretStr.mk (replaceStr ((inp.database_connection_url.getD
          (SecretStr.mk DEFAULT_DB_CONNECTION_URL)).get_secret_value)
          "$MARVIN_HOME" (inp.home.getD hd).toStr) := by
  rw [constructSettings_eq] at hok
  cases hvb : validator_llm_backend inp.llm_backend (inp.llm_model.getD "gpt-3.5-turbo") with
  | error e => rw [hvb] at hok; exact absurd hok (by simp)
  | ok b =>
    rw [hvb] at hok
    simp only [Except.ok.injEq, Prod.mk.injEq] at hok
    obtain ⟨hs, _⟩ := hok
    subst hs
    have hurl : ∀ w : Settings,
        (test_mode_settings w).database_connection_url
          = w.database_connection_url := by
      intro w; unfold test_mode_settings; split <;> rfl
    constructor
    · rw [hurl]
      simp [initial_setup, resolveFields, SecretStr.get_secret_value]
    · rw [hurl]
      simp [initial_setup, resolveFields, SecretStr.get_secret_value]

/-- Witness for C8 at a secret carrying two placeholder occurrences and
home `/h`: both occurrences are substituted. -/
theorem C8_secret_interpolation_witness :
    (okSettings (constructSettings hd0 c8input []) dfltSettings).database_connection_url
      = SecretStr.mk "db:///h/a?shadow=/h" := by
  have h := C8_secret_interpolation hd0 c8input []
    (okSettings (constructSettings hd0 c8input []) dfltSettings)
    (okFS (constructSettings hd0 c8input []) []) (by decide)
  rw [h.2]
  decide

/-- Claim C6: the export/reload round-trip is broken on the code.  The
all-defaults construction succeeds; exporting it writes the line
`MARVIN_LOG_CONSOLE_WIDTH=None` (the `str()` of the `None`-valued
optional int field); reloading from that file alone fails the integer
coercion of that line, so no settings object is reproduced at all. -/
theorem C6_roundtrip_fails :
    isOkE (constructSettings hd0 {} []) = true
    ∧ lookupEnv (export_to_env_file c6resolved) "MARVIN_LOG_CONSOLE_WIDTH"
        = some "None"
    ∧ rawInputFromLines (export_to_env_file c6resolved)
        = Except.error (PyError.coercionError "log_console_width")
    ∧ isOkE (reloadSettings hd0 (export_to_env_file c6resolved) []) = false := by
  decide

/-- Claim C1: for every live settings `__dict__`, every override
mapping, and every scope body — including one that mutates fields the
caller never overrode and one that raises — after `temporary_settings`
exits, every field compares Python-equal (`pyEq`) to the value it held
immediately before the scope was entered.  What is put back is the
`.dict()` snapshot of the pre-entry state: identical for every scalar
field, and for the nested chroma model the plain dict of its fields,
which pydantic v1's `BaseModel.__eq__` equates with the model.
Applying the overrides themselves is a bare `dict.update` before the
`try` block; it is total, so entry cannot fail partway. -/
theorem C1_scope_restoration (s kwargs : PyDict) (body : ScopeBody)
    (hnd : keysNodup s = true) :
    ∀ k v, pyDictGet s k = some v →
      pyDictGet (temporary_settings kwargs body s).final k = some (serializeValue v)
      ∧ pyEq (serializeValue v) v = true := by
  intro k v hget
  rw [temporary_settings_final kwargs body s hnd, pyDictGet_serialize, hget]
  exact ⟨rfl, pyEq_serializeValue v⟩

/-- Witness for C1: a scope that overrides `verbose`, whose body mutates
`llm_model` (never overridden) and then raises; after exit the nested
chroma field holds the dict snapshot, Python-equal to its pre-entry
model value. -/
theorem C1_scope_restoration_witness :
    pyDictGet (temporary_settings [("verbose", PyValue.vbool true)] raisingBody
        sampleState).final "chroma"
      = some (serializeValue (PyValue.chromaModel
          { persist_directory := "/home/user/.marvin/chroma" }))
    ∧ pyEq (serializeValue (PyValue.chromaModel
          { persist_directory := "/home/user/.marvin/chroma" }))
        (PyValue.chromaModel { persist_directory := "/home/user/.marvin/chroma" })
      = true :=
  C1_scope_restoration sampleState [("verbose", PyValue.vbool true)] raisingBody
    (by decide) "chroma"
    (PyValue.chromaModel { persist_directory := "/home/user/.marvin/chroma" })
    (by decide)

/-- Claim C9, counterexample: the type-consistency invariant is not
preserved by a temporary-override scope.  Entry installs override
values with no validation (a string lands in the integer
`llm_max_tokens` field), and exit restores the `.dict()` snapshot, in
which the nested chroma field has become a plain dict rather than a
`ChromaSettings` instance — so the invariant is broken both inside the
scope and after it exits, even though the body finished normally. -/
theorem C9_counterexample :
    schemaWellTyped sampleState = true
    ∧ schemaWellTyped
        (pyDictUpdate sampleState [("llm_max_tokens", PyValue.vstr "lots")]) = false
    ∧ (temporary_settings [("llm_max_tokens", PyValue.vstr "lots")] mutatingBody
        sampleState).raised = none
    ∧ schemaWellTyped (temporary_settings [("llm_max_tokens", PyValue.vstr "lots")]
        mutatingBody sampleState).final = false := by
  decide

/-- Claim C9, amended: the type-consistency invariant holds after
construction and is preserved by the validating setter; a
temporary-override scope preserves it on entry only when every override
value is itself consistent with its target field's declared type
(entry bypasses validation), and on exit restores it for every field
except the nested chroma model, which comes back as the plain dict
snapshot of its pre-entry fields. -/
theorem C9_type_consistency :
    (∀ hd inp fs s fs2, constructSettings hd inp fs = Except.ok (s, fs2) →
      schemaWellTyped (settingsToDict s) = true)
    ∧ (∀ d k v d2, schemaWellTyped d = true →
        setattrValidated d k v = Except.ok d2 → schemaWellTyped d2 = true)
    ∧ (∀ d kw, schemaWellTyped d = true → kwargsWellTyped kw = true →
        schemaWellTyped (pyDictUpdate d kw) = true)
    ∧ (∀ d kw body, keysNodup d = true → schemaWellTyped d = true →
        schemaWellTypedExceptChroma (temporary_settings kw body d).final = true
        ∧ pyDictGet (temporary_settings kw body d).final "chroma"
            = (pyDictGet d "chroma").map serializeValue) := by
  refine ⟨?_, ?_, ?_, ?_⟩
  · intro hd inp fs s fs2 _
    exact settingsToDict_wellTyped s
  · intro d k v d2 hwt hset
    unfold setattrValidated at hset
    split at hset
    · exact absurd hset (by simp)
    · rename_i kd hsk
      split at hset
      · rename_i v2 hcv
        injection hset with hset2
        subst hset2
        apply schemaWellTyped_set d k v2 hwt
        unfold valueMatchesSchema
        rw [hsk]
        exact kindMatches_coerce kd v v2 hcv
      · exact absurd hset (by simp)
  · intro d kw hwt hkw
    exact schemaWellTyped_update kw d hwt hkw
  · intro d kw body hnd hwt
    rw [temporary_settings_final kw body d hnd]
    constructor
    · apply all_fieldOk_serialize
      · unfold schemaWellTyped at hwt
        rw [List.all_eq_true] at hwt ⊢
        intro p hp
        exact hwt p (List.mem_of_mem_filter hp)
      · decide
    · exact pyDictGet_serialize d "chroma"

/-- Witness for C9's amended statement: the all-defaults construction
is well-typed; a validated assignment and a well-typed override update
preserve the invariant on the sample state; exiting a scope on the
sample state keeps every non-chroma field well-typed and puts the dict
snapshot in the chroma slot. -/
theorem C9_type_consistency_witness :
    schemaWellTyped (settingsToDict
        (okSettings (constructSettings hd0 {} []) dfltSettings)) = true
    ∧ schemaWellTyped (okPyDict (setattrValidated sampleState "llm_max_tokens"
        (PyValue.vint 99)) []) = true
    ∧ schemaWellTyped (pyDictUpdate sampleState
        [("verbose", PyValue.vbool true)]) = true
    ∧ schemaWellTypedExceptChroma
        (temporary_settings [] mutatingBody sampleState).final = true
    ∧ pyDictGet (temporary_settings [] mutatingBody sampleState).final "chroma"
        = (pyDictGet sampleState "chroma").map serializeValue :=
  ⟨C9_type_consistency.1 hd0 {} []
      (okSettings (constructSettings hd0 {} []) dfltSettings)
      (okFS (constructSettings hd0 {} []) []) (by decide),
   C9_type_consistency.2.1 sampleState "llm_max_tokens" (PyValue.vint 99)
      (okPyDict (setattrValidated sampleState "llm_max_tokens" (PyValue.vint 99)) [])
      (by decide) (by decide),
   C9_type_consistency.2.2.1 sampleState [("verbose", PyValue.vbool true)]
      (by decide) (by decide),
   (C9_type_consistency.2.2.2 sampleState [] mutatingBody (by decide) (by decide)).1,
   (C9_type_consistency.2.2.2 sampleState [] mutatingBody (by decide) (by decide)).2⟩
